import Mathlib

/-
  Verification development for the RadioX → Spotify playlist bot
  (src/radiox_spotify.py).  The definitions below are a shallow embedding
  of the reconciliation / retry engine of that file: the staged fuzzy
  search (search_song_on_spotify), the bounded retry queue
  (process_failed_search_queue), the idempotent insert path
  (add_song_to_playlist), the size governor (manage_playlist_size), the
  duplicate sweep (check_and_remove_duplicates), the snapshot save/load
  pair (save_state / load_state) and the scheduler transitions of the
  main loop (run) together with the admin pause/resume route.
-/

set_option maxRecDepth 8000

namespace RadioX

/-! ## Constants (radiox_spotify.py lines 347-349, 471-472) -/

/-- MAX_PLAYLIST_SIZE = 500 (line 347). -/
def MAX_PLAYLIST_SIZE : Nat := 500

/-- MAX_FAILED_SEARCH_ATTEMPTS = 3 (line 349). -/
def MAX_FAILED_SEARCH_ATTEMPTS : Nat := 3

/-- RECENTLY_ADDED_SPOTIFY_IDS = deque(maxlen=20) (line 471). -/
def RECENTLY_ADDED_MAXLEN : Nat := 20

/-- failed_search_queue = deque(maxlen=5) (line 472). -/
def FAILED_QUEUE_MAXLEN : Nat := 5

/-! ## Python `collections.deque(maxlen=n)` behaviour -/

/-- `deque(maxlen).append x`: append on the right; when the deque exceeds
`maxlen`, elements are discarded from the left. -/
def dequeAppend {α : Type} (maxlen : Nat) (q : List α) (x : α) : List α :=
  if maxlen < (q ++ [x]).length then (q ++ [x]).drop ((q ++ [x]).length - maxlen)
  else q ++ [x]

/-- `deque(iterable, maxlen)`: when the iterable is longer than `maxlen`,
only the rightmost `maxlen` elements are kept. -/
def dequeOfList {α : Type} (maxlen : Nat) (l : List α) : List α :=
  if maxlen < l.length then l.drop (l.length - maxlen) else l

/-! ## String helpers mirroring the Python string operations used by
`search_song_on_spotify` (lines 909-939): `str.strip()`, `str.lower()`
and the two `re.sub` title rewrites. -/

/-- Whitespace test used for `\s` and `str.strip()`. -/
def isWs (c : Char) : Bool := c.isWhitespace

/-- `str.strip()` on a character list: drop whitespace from both ends. -/
def trimChars (cs : List Char) : List Char :=
  ((cs.dropWhile isWs).reverse.dropWhile isWs).reverse

/-- `str.lower()` (ASCII, as used on the titles compared at lines 930/934). -/
def lowerStr (t : String) : String := String.mk (t.data.map Char.toLower)

/-- Remainder of the list just after the first occurrence of `close`
(the lazy `.*?` of the regex stops at the first closing delimiter). -/
def afterFirstClose (close : Char) : List Char → Option (List Char)
  | [] => none
  | c :: cs => if c = close then some cs else afterFirstClose close cs

/-- Does the delimiter pattern of `\s*<open>.*?<close>\s*` match at the head
of `cs`?  If so, return the remainder after the whole match (the greedy
trailing `\s*` included). -/
def delimMatchAtHead (openC closeC : Char) (cs : List Char) : Option (List Char) :=
  let rest := cs.dropWhile isWs
  match rest with
  | c :: r =>
    if c = openC then (afterFirstClose closeC r).map (fun t => t.dropWhile isWs)
    else none
  | [] => none

/-- One left-to-right pass of `re.sub(r'\s*\(.*?\)\s*', ' ', -)` (or the
bracket variant): every leftmost match is replaced by a single space.
The fuel starts at the length of the list, which bounds the recursion
because every step consumes at least one character. -/
def subDelimFuel (openC closeC : Char) : Nat → List Char → List Char
  | 0, cs => cs
  | _ + 1, [] => []
  | fuel + 1, c :: cs =>
    match delimMatchAtHead openC closeC (c :: cs) with
    | some rest => ' ' :: subDelimFuel openC closeC fuel rest
    | none => c :: subDelimFuel openC closeC fuel cs

/-- `cleaned_title_paren = re.sub(r'\s*\(.*?\)\s*', ' ', original_title).strip()`
(line 929). -/
def cleanParen (t : String) : String :=
  String.mk (trimChars (subDelimFuel '(' ')' t.data.length t.data))

/-- Case-insensitive test for the `feat\.` literal (IGNORECASE) at the head. -/
def startsWithFeatDot (cs : List Char) : Bool :=
  match cs with
  | f :: e :: a :: t :: d :: _ =>
    f.toLower == 'f' && e.toLower == 'e' && a.toLower == 'a' && t.toLower == 't' && d == '.'
  | _ => false

/-- One pass of `re.sub(r'\s*\[.*?\]\s*|feat\..*', ' ', -, flags=IGNORECASE)`:
at each position the bracket alternative is tried first; otherwise
`feat\..*` consumes the rest of the title. -/
def subFeatFuel : Nat → List Char → List Char
  | 0, cs => cs
  | _ + 1, [] => []
  | fuel + 1, c :: cs =>
    match delimMatchAtHead '[' ']' (c :: cs) with
    | some rest => ' ' :: subFeatFuel fuel rest
    | none =>
      if startsWithFeatDot (c :: cs) then [' ']
      else c :: subFeatFuel fuel cs

/-- `cleaned_title_feat = re.sub(r'\s*\[.*?\]\s*|feat\..*', ' ', original_title,
flags=re.IGNORECASE).strip()` (line 933). -/
def cleanFeat (t : String) : String :=
  String.mk (trimChars (subFeatFuel t.data.length t.data))

/-! ## CatalogResolver: `search_song_on_spotify` (lines 909-939)

The outbound Spotify search is a parameter `api title artist` whose
outcome is one of: a track id was found (`results["tracks"]["items"]`
non-empty), no match (`found` empty), or a persistent network/API error
(the `except` branch of `_attempt_search_spotify`, line 922). -/

/-- Outcome of one `sp.search` call as classified by
`_attempt_search_spotify` (lines 912-925). -/
inductive SearchOutcome where
  | found (id : String)
  | notFound
  | networkError
deriving DecidableEq, Repr

/-- Observable result of one `search_song_on_spotify` call: the returned
value, the list of titles actually searched (in order), whether
`add_to_failed_search_queue` was invoked (line 924) and whether a
not-found failure was recorded to the daily cache (line 938). -/
structure SearchFx where
  result : Option String
  calls : List String
  addedToFailedQueue : Bool
  dailyFailureRecorded : Bool
deriving DecidableEq, Repr

/-- The rewritten titles `search_song_on_spotify` is prepared to try after
the original (lines 929-936): the parenthetical-stripped title if
non-empty and case-insensitively different from the original; then the
brackets/feat-stripped title if non-empty and case-insensitively
different from both previous candidates. -/
def rewriteTitles (original_title : String) : List String :=
  (if cleanParen original_title ≠ "" ∧
      lowerStr (cleanParen original_title) ≠ lowerStr original_title
   then [cleanParen original_title] else [])
    ++ (if cleanFeat original_title ≠ "" ∧
          lowerStr (cleanFeat original_title) ≠ lowerStr original_title ∧
          lowerStr (cleanFeat original_title) ≠ lowerStr (cleanParen original_title)
        then [cleanFeat original_title] else [])

/-- All candidate titles in order (lines 927-936): the original first. -/
def searchTitles (original_title : String) : List String :=
  original_title :: rewriteTitles original_title

/-- The attempt loop of `search_song_on_spotify`: try each candidate title
in turn; a found id returns immediately; a network error returns
immediately (enqueueing to the failed-search queue when a queue id was
supplied and this is not already a retry, line 924); only a clean
not-found moves on to the next candidate.  Exhausting all candidates
records a daily failure when not a retry (line 938). -/
def runSearchAttempts (api : String → String → SearchOutcome) (artist : String)
    (hasQueueId is_retry : Bool) : List String → List String → SearchFx
  | tried, [] => ⟨none, tried.reverse, false, !is_retry⟩
  | tried, t :: rest =>
    match api t artist with
    | .found id => ⟨some id, (t :: tried).reverse, false, false⟩
    | .networkError => ⟨none, (t :: tried).reverse, hasQueueId && !is_retry, false⟩
    | .notFound => runSearchAttempts api artist hasQueueId is_retry (t :: tried) rest

/-- `search_song_on_spotify(original_title, artist, radiox_id_for_queue,
is_retry_from_queue)` (lines 909-939).  `hasQueueId` models the truthiness
of `radiox_id_for_queue`. -/
def search_song_on_spotify (api : String → String → SearchOutcome)
    (original_title artist : String) (hasQueueId is_retry : Bool) : SearchFx :=
  runSearchAttempts api artist hasQueueId is_retry [] (searchTitles original_title)

/-! ## RetryQueue: `failed_search_queue` and its operations -/

/-- An entry of `failed_search_queue`: the dict
`{'title': ..., 'artist': ..., 'id': radiox_id, 'attempts': n}`. -/
structure RetryItem where
  title : String
  artist : String
  sourceId : String
  attempts : Nat
deriving DecidableEq, Repr

/-- Number of queue entries carrying a given sourceId. -/
def countSourceId (q : List RetryItem) (s : String) : Nat :=
  (q.filter (fun it => it.sourceId == s)).length

/-- Modelled from the spec: the method `add_to_failed_search_queue` is
invoked at radiox_spotify.py line 924 but its definition is absent from
src/.  Per spec §4.3 (RetryQueue), `enqueue` "is a no-op if an item with
the same `sourceId` is already present (idempotent) or if the queue is at
capacity (drop with a warning — never block the caller)"; a fresh item
starts with `attempts = 0` (§3 RetryItem).  The capacity is the deque
bound `maxlen=5` of line 472. -/
def add_to_failed_search_queue (q : List RetryItem) (title artist sourceId : String) :
    List RetryItem :=
  if q.any (fun it => it.sourceId == sourceId) then q
  else if FAILED_QUEUE_MAXLEN ≤ q.length then q
  else q ++ [⟨title, artist, sourceId, 0⟩]

/-- Observable result of one `process_failed_search_queue` call
(lines 1034-1047): the queue afterwards, the track id handed to the
insert path on success, and the terminal-failure record emitted when the
attempt budget is exhausted. -/
structure DrainFx where
  queue : List RetryItem
  addedTrack : Option String
  terminalFailure : Option RetryItem
deriving DecidableEq, Repr

/-- `process_failed_search_queue` (lines 1034-1047): pop the head item,
increment its attempt counter, retry the search with
`is_retry_from_queue=True` (so no re-enqueue and no daily record from
inside the search); on success the track goes to the insert path; on
failure the item is re-appended at the tail while `attempts <
MAX_FAILED_SEARCH_ATTEMPTS`, and otherwise discarded with a terminal
failure record. -/
def process_failed_search_queue (api : String → String → SearchOutcome)
    (q : List RetryItem) : DrainFx :=
  match q with
  | [] => ⟨[], none, none⟩
  | item :: rest =>
    let item2 : RetryItem := { item with attempts := item.attempts + 1 }
    match (search_song_on_spotify api item2.title item2.artist false true).result with
    | some id => ⟨rest, some id, none⟩
    | none =>
      if item2.attempts < MAX_FAILED_SEARCH_ATTEMPTS then
        ⟨dequeAppend FAILED_QUEUE_MAXLEN rest item2, none, none⟩
      else ⟨rest, none, some item2⟩

/-! ## SizeGovernor and the insert path -/

/-- `manage_playlist_size` (lines 941-955): fetch the total and the first
(oldest) item; when `total >= MAX_PLAYLIST_SIZE` and the playlist is
non-empty, remove every occurrence of the oldest item's track id
(`playlist_remove_all_occurrences_of_items`).  The playlist is the list
of track ids in playlist order, position 0 oldest. -/
def manage_playlist_size (playlist : List String) : List String :=
  if MAX_PLAYLIST_SIZE ≤ playlist.length then
    match playlist with
    | [] => playlist
    | oldest :: _ => playlist.filter (fun x => x != oldest)
  else playlist

/-- How the outbound `playlist_add_items` attempt ends (lines 964-1004):
it succeeds; Spotify rejects it with HTTP 403 and a "duplicate" message
(line 995); or some other exception is raised. -/
inductive AddApiOutcome where
  | ok
  | duplicate403
  | otherError
deriving DecidableEq, Repr

/-- Observable result of one `add_song_to_playlist` call: return value,
playlist and RECENTLY_ADDED_SPOTIFY_IDS afterwards, how many outbound
`playlist_add_items` calls were made, and whether a failure record went
to the daily cache. -/
structure AddFx where
  success : Bool
  playlist : List String
  recentlyAdded : List String
  insertCalls : Nat
  dailyFailureRecorded : Bool
deriving DecidableEq, Repr

/-- `add_song_to_playlist` (lines 957-1004).  If the track id is already
in RECENTLY_ADDED_SPOTIFY_IDS the call returns True with no API traffic
(lines 959-961).  Otherwise `manage_playlist_size` runs first
(`sizeCheckFails` models its exception path returning False, after which
the add proceeds anyway, lines 962-963), then the add attempt: on success
the id is appended to the playlist and to RECENTLY_ADDED_SPOTIFY_IDS
(line 991); on a 403-duplicate the id is still appended to
RECENTLY_ADDED_SPOTIFY_IDS but the call returns False with a daily
failure record (lines 993-1000); any other failure returns False with a
daily failure record. -/
def add_song_to_playlist (playlist recently : List String)
    (sizeCheckFails : Bool) (api : AddApiOutcome) (trackId : String) : AddFx :=
  if trackId ∈ recently then ⟨true, playlist, recently, 0, false⟩
  else
    let playlist2 := if sizeCheckFails then playlist else manage_playlist_size playlist
    match api with
    | .ok =>
      ⟨true, playlist2 ++ [trackId], dequeAppend RECENTLY_ADDED_MAXLEN recently trackId,
        1, false⟩
    | .duplicate403 =>
      ⟨false, playlist2, dequeAppend RECENTLY_ADDED_MAXLEN recently trackId, 1, true⟩
    | .otherError => ⟨false, playlist2, recently, 1, true⟩

/-! ## ReconciliationSweep: `check_and_remove_duplicates` (lines 1006-1032) -/

/-- State threaded through the sweep: the playlist, the
RECENTLY_ADDED_SPOTIFY_IDS deque, and the log of ids appended to that
deque during the sweep (line 1030), in order. -/
structure SweepState where
  playlist : List String
  recently : List String
  registered : List String
deriving DecidableEq, Repr

/-- Re-processing of one duplicated track id (lines 1026-1031): remove
all occurrences, re-add a single occurrence at the end of the playlist,
and register the id with RECENTLY_ADDED_SPOTIFY_IDS. -/
def processDup (st : SweepState) (id : String) : SweepState :=
  { playlist := st.playlist.filter (fun x => x != id) ++ [id]
    recently := dequeAppend RECENTLY_ADDED_MAXLEN st.recently id
    registered := st.registered ++ [id] }

/-- Number of occurrences of a track id in the fetched playlist. -/
def countId (l : List String) (c : String) : Nat :=
  (l.filter (fun x => x == c)).length

/-- Distinct track ids in order of first occurrence: the iteration order
of `Counter(t['id'] for t in all_tracks)` at line 1021. -/
def distinctFirsts : List String → List String
  | [] => []
  | x :: xs => x :: distinctFirsts (xs.filter (fun y => y != x))
termination_by l => l.length
decreasing_by
  simp only [List.length_cons]
  exact Nat.lt_succ_of_le (List.length_filter_le _ _)

/-- The ids the sweep re-processes: those whose count in the fetched
playlist exceeds one (line 1022-1023). -/
def dupIds (p : List String) : List String :=
  (distinctFirsts p).filter (fun id => decide (1 < countId p id))

/-- `check_and_remove_duplicates` (lines 1006-1032) with every catalog
call succeeding: fetch the playlist, count ids, and re-process each id
occurring more than once. -/
def check_and_remove_duplicates (playlist recently : List String) : SweepState :=
  List.foldl processDup ⟨playlist, recently, []⟩ (dupIds playlist)

/-! ## Snapshot store: `save_state` / `load_state` (lines 523-569)

Daily-cache records are dicts in the source; their contents are
irrelevant to persistence structure, so they are carried as opaque
strings here. -/

/-- The in-memory fields of `RadioXBot` touched by persistence, plus
`last_added_radiox_track_id` (initialised to None at line 432). -/
structure BotState where
  recentlyAdded : List String
  failedQueue : List RetryItem
  dailyAdded : List String
  dailyFailed : List String
  lastAddedRadioXTrackId : Option String
deriving DecidableEq, Repr

/-- What `save_state` (lines 523-544, with `save_daily_cache`) writes:
recent_tracks.json, failed_queue.json and the two daily cache files.
No other field is written. -/
structure Snapshot where
  recentTracksFile : List String
  failedQueueFile : List RetryItem
  dailyAddedFile : List String
  dailyFailedFile : List String
deriving DecidableEq, Repr

/-- `save_state` (lines 523-544). -/
def save_state (b : BotState) : Snapshot :=
  ⟨b.recentlyAdded, b.failedQueue, b.dailyAdded, b.dailyFailed⟩

/-- Field values of a freshly constructed `RadioXBot` (lines 432,
471-474): empty deques and lists, `last_added_radiox_track_id = None`. -/
def initState : BotState := ⟨[], [], [], [], none⟩

/-- `load_state` (lines 546-569) applied on startup to a fresh instance:
the two queue files are read back into deques with their maxlens and the
daily caches are restored; nothing else is assigned. -/
def load_state (snap : Snapshot) (b : BotState) : BotState :=
  { b with
    recentlyAdded := dequeOfList RECENTLY_ADDED_MAXLEN snap.recentTracksFile
    failedQueue := dequeOfList FAILED_QUEUE_MAXLEN snap.failedQueueFile
    dailyAdded := snap.dailyAddedFile
    dailyFailed := snap.dailyFailedFile }

/-! ## CycleScheduler: the main loop (lines 1595-1626) and
`admin_pause_resume` (lines 1768-1774) -/

/-- The scheduler-relevant state: `service_state` and `paused_reason`
strings, plus a counter of `process_main_cycle` invocations (ticks). -/
structure SchedulerState where
  service_state : String
  paused_reason : String
  ticksRun : Nat
deriving DecidableEq, Repr

/-- `update_service_state` (lines 501-514), restricted to the state
fields: assignments happen only when the state actually changes. -/
def update_service_state (s : SchedulerState) (new_state reason : String) :
    SchedulerState :=
  if new_state != s.service_state then
    { s with service_state := new_state, paused_reason := reason }
  else s

/-- One iteration of the `while True` loop of `run` (lines 1595-1626).
`inWindow` is the test `START_TIME <= now_local.time() <= END_TIME`
(line 1607).  Inside the window the loop sets the service state to
'playing' (line 1608), clears `paused_reason` (line 1609) and runs
`process_main_cycle` (line 1614) — one tick.  Outside the window it sets
the state to 'paused' with reason 'out_of_hours' (line 1616) and runs no
tick. -/
def run_loop_iteration (inWindow : Bool) (s : SchedulerState) : SchedulerState :=
  if inWindow then
    let s1 := update_service_state s "playing" ""
    let s2 := { s1 with paused_reason := "" }
    { s2 with ticksRun := s2.ticksRun + 1 }
  else update_service_state s "paused" "out_of_hours"

/-- `admin_pause_resume` (lines 1768-1774): toggle between 'playing' and
'paused (manual)'. -/
def admin_pause_resume (s : SchedulerState) : SchedulerState :=
  if s.service_state == "playing" then update_service_state s "paused" "manual"
  else update_service_state s "playing" ""

/-! ## Helper lemmas -/

theorem length_filter_cons_le {α : Type} (p : α → Bool) (x : α) (xs : List α) :
    (xs.filter p).length ≤ ((x :: xs).filter p).length := by
  cases h : p x <;> simp [List.filter_cons, h]

theorem length_filter_drop_le {α : Type} (p : α → Bool) :
    ∀ (l : List α) (k : Nat), ((l.drop k).filter p).length ≤ (l.filter p).length := by
  intro l
  induction l with
  | nil => intro k; simp
  | cons x xs ih =>
    intro k
    cases k with
    | zero => exact Nat.le_refl _
    | succ k2 =>
      simp only [List.drop_succ_cons]
      exact Nat.le_trans (ih k2) (length_filter_cons_le p x xs)

theorem mem_append_drop {α : Type} (x : α) :
    ∀ (q : List α) (k : Nat), k ≤ q.length → x ∈ (q ++ [x]).drop k := by
  intro q
  induction q with
  | nil =>
    intro k hk
    have : k = 0 := Nat.le_zero.mp hk
    simp [this]
  | cons a q2 ih =>
    intro k hk
    cases k with
    | zero => simp
    | succ k2 =>
      simp only [List.cons_append, List.drop_succ_cons]
      exact ih k2 (Nat.le_of_succ_le_succ hk)

theorem mem_dequeAppend_self {α : Type} (m : Nat) (hm : 1 ≤ m) (q : List α) (x : α) :
    x ∈ dequeAppend m q x := by
  unfold dequeAppend
  split
  · apply mem_append_drop
    simp only [List.length_append, List.length_cons, List.length_nil]
    omega
  · simp

theorem dequeOfList_of_le {α : Type} (m : Nat) (l : List α) (h : l.length ≤ m) :
    dequeOfList m l = l := by
  unfold dequeOfList
  rw [if_neg]
  omega

/-! ### Counting entries of the retry queue -/

theorem countSourceId_nil (s : String) : countSourceId [] s = 0 := rfl

theorem countSourceId_cons (it : RetryItem) (q : List RetryItem) (s : String) :
    countSourceId (it :: q) s =
      (if it.sourceId == s then 1 else 0) + countSourceId q s := by
  cases h : it.sourceId == s <;>
    simp [countSourceId, List.filter_cons, h, Nat.add_comm]

theorem countSourceId_append (q1 q2 : List RetryItem) (s : String) :
    countSourceId (q1 ++ q2) s = countSourceId q1 s + countSourceId q2 s := by
  simp [countSourceId, List.filter_append]

theorem countSourceId_drop_le (q : List RetryItem) (k : Nat) (s : String) :
    countSourceId (q.drop k) s ≤ countSourceId q s :=
  length_filter_drop_le _ q k

theorem countSourceId_dequeAppend_le (m : Nat) (q : List RetryItem) (x : RetryItem)
    (s : String) :
    countSourceId (dequeAppend m q x) s ≤ countSourceId (q ++ [x]) s := by
  unfold dequeAppend
  split
  · exact countSourceId_drop_le _ _ _
  · exact Nat.le_refl _

theorem countSourceId_zero_any (q : List RetryItem) (s : String)
    (h : countSourceId q s = 0) :
    q.any (fun it => it.sourceId == s) = false := by
  induction q with
  | nil => rfl
  | cons it rest ih =>
    rw [countSourceId_cons] at h
    cases hit : it.sourceId == s
    · rw [hit] at h
      simp only [List.any_cons, hit, Bool.false_or]
      exact ih (by simpa using h)
    · exfalso
      rw [hit] at h
      simp at h

/-! ### Counting occurrences in the playlist -/

theorem countId_nil (c : String) : countId [] c = 0 := rfl

theorem countId_cons (x c : String) (xs : List String) :
    countId (x :: xs) c = (if x == c then 1 else 0) + countId xs c := by
  cases h : x == c <;> simp [countId, List.filter_cons, h, Nat.add_comm]

theorem countId_append (l1 l2 : List String) (c : String) :
    countId (l1 ++ l2) c = countId l1 c + countId l2 c := by
  simp [countId, List.filter_append]

theorem countId_filter_self (l : List String) (c : String) :
    countId (l.filter (fun x => x != c)) c = 0 := by
  induction l with
  | nil => rfl
  | cons x xs ih =>
    cases h : x == c
    · have hb : (x != c) = true := by simp [bne, h]
      simp [List.filter_cons, hb, countId_cons, h, ih]
    · have hx : x = c := by simpa using h
      subst hx
      simp [List.filter_cons, ih]

theorem countId_filter_ne (l : List String) (c d : String) (h : ¬c = d) :
    countId (l.filter (fun x => x != d)) c = countId l c := by
  induction l with
  | nil => rfl
  | cons x xs ih =>
    cases hxd : x == d
    · have hb : (x != d) = true := by simp [bne, hxd]
      simp [List.filter_cons, hb, countId_cons, ih]
    · have hx : x = d := by simpa using hxd
      subst hx
      have hxc : (x == c) = false := beq_eq_false_iff_ne.mpr (fun he => h he.symm)
      simp [List.filter_cons, countId_cons, hxc, ih]

theorem countId_singleton_ne (c d : String) (h : ¬c = d) : countId [d] c = 0 := by
  have hdc : (d == c) = false := beq_eq_false_iff_ne.mpr (fun he => h he.symm)
  simp [countId_cons, hdc, countId_nil]

theorem mem_of_countId_pos (l : List String) (c : String) (h : 0 < countId l c) :
    c ∈ l := by
  induction l with
  | nil => simp [countId_nil] at h
  | cons x xs ih =>
    rw [countId_cons] at h
    cases hx : x == c
    · rw [hx] at h
      simp only [Bool.false_eq_true, if_false, Nat.zero_add] at h
      exact List.mem_cons_of_mem _ (ih h)
    · have : x = c := by simpa using hx
      exact this ▸ List.mem_cons_self _ _

/-! ### Sweep lemmas -/

theorem mem_distinctFirsts (c : String) :
    ∀ l : List String, c ∈ distinctFirsts l ↔ c ∈ l := by
  intro l
  induction l using distinctFirsts.induct with
  | case1 => simp [distinctFirsts]
  | case2 x xs ih =>
    rw [distinctFirsts]
    by_cases hc : c = x
    · subst hc
      simp
    · simp only [List.mem_cons, ih, List.mem_filter]
      constructor
      · rintro (rfl | ⟨hm, _⟩)
        · exact Or.inl rfl
        · exact Or.inr hm
      · rintro (rfl | hm)
        · exact Or.inl rfl
        · exact Or.inr ⟨hm, by simp [bne, beq_eq_false_iff_ne.mpr hc]⟩

theorem distinctFirsts_nodup : ∀ l : List String, (distinctFirsts l).Nodup := by
  intro l
  induction l using distinctFirsts.induct with
  | case1 => simp [distinctFirsts]
  | case2 x xs ih =>
    rw [distinctFirsts]
    refine List.nodup_cons.mpr ⟨?_, ih⟩
    intro hmem
    rcases (mem_distinctFirsts x _).mp hmem with hf
    rcases List.mem_filter.mp hf with ⟨_, hb⟩
    simp [bne] at hb

theorem dupIds_nodup (p : List String) : (dupIds p).Nodup :=
  (distinctFirsts_nodup p).filter _

theorem mem_dupIds (p : List String) (c : String) :
    c ∈ dupIds p ↔ c ∈ p ∧ 1 < countId p c := by
  simp [dupIds, List.mem_filter, mem_distinctFirsts]

theorem foldl_processDup_registered_mono (c : String) :
    ∀ (l : List String) (st : SweepState), c ∈ st.registered →
      c ∈ (List.foldl processDup st l).registered := by
  intro l
  induction l with
  | nil => intro st h; simpa using h
  | cons id rest ih =>
    intro st h
    rw [List.foldl_cons]
    exact ih _ (by simp [processDup, h])

theorem foldl_processDup_count_of_not_mem (c : String) :
    ∀ (l : List String) (st : SweepState), c ∉ l →
      countId (List.foldl processDup st l).playlist c = countId st.playlist c := by
  intro l
  induction l with
  | nil => intro st _; rfl
  | cons id rest ih =>
    intro st h
    have hne : ¬c = id := fun he => h (he ▸ List.mem_cons_self _ _)
    have hrest : c ∉ rest := fun hm => h (List.mem_cons_of_mem _ hm)
    rw [List.foldl_cons, ih _ hrest]
    simp only [processDup]
    rw [countId_append, countId_filter_ne _ _ _ hne, countId_singleton_ne _ _ hne]
    omega

theorem foldl_processDup_count_of_mem (c : String) :
    ∀ (l : List String) (st : SweepState), l.Nodup → c ∈ l →
      countId (List.foldl processDup st l).playlist c = 1 ∧
        c ∈ (List.foldl processDup st l).registered := by
  intro l
  induction l with
  | nil => intro st _ h; cases h
  | cons id rest ih =>
    intro st hnd hmem
    rcases List.nodup_cons.mp hnd with ⟨hid, hndr⟩
    by_cases hc : c = id
    · subst hc
      rw [List.foldl_cons]
      constructor
      · rw [foldl_processDup_count_of_not_mem c rest _ hid]
        simp only [processDup]
        rw [countId_append, countId_filter_self]
        simp [countId_cons, countId_nil]
      · exact foldl_processDup_registered_mono c rest _ (by simp [processDup])
    · have hr : c ∈ rest := by
        rcases List.mem_cons.mp hmem with h1 | h2
        · exact absurd h1 hc
        · exact h2
      rw [List.foldl_cons]
      exact ih _ hndr hr

/-! ### Retry-queue drain lemmas -/

theorem drain_countSourceId_le (api : String → String → SearchOutcome)
    (q : List RetryItem) (s : String) :
    countSourceId (process_failed_search_queue api q).queue s ≤ countSourceId q s := by
  cases q with
  | nil => simp [process_failed_search_queue, countSourceId_nil]
  | cons item rest =>
    simp only [process_failed_search_queue]
    cases hres :
        (search_song_on_spotify api item.title item.artist false true).result with
    | some id =>
      simp only [hres]
      rw [countSourceId_cons]
      split <;> omega
    | none =>
      simp only [hres]
      by_cases hatt : item.attempts + 1 < MAX_FAILED_SEARCH_ATTEMPTS
      · rw [if_pos hatt]
        have h1 := countSourceId_dequeAppend_le FAILED_QUEUE_MAXLEN rest
          { item with attempts := item.attempts + 1 } s
        rw [countSourceId_append] at h1
        rw [countSourceId_cons]
        have h2 : countSourceId [{ item with attempts := item.attempts + 1 }] s =
            if item.sourceId == s then 1 else 0 := by
          rw [countSourceId_cons, countSourceId_nil]
          simp
        rw [h2] at h1
        dsimp only
        split at h1 <;> split <;> omega
      · rw [if_neg hatt]
        rw [countSourceId_cons]
        dsimp only
        split <;> omega

/-! ## Claim theorems -/

/-- Claim C1: for every sourceId, the retry queue holds at most one
RetryItem for that sourceId at any time — enqueueing a sourceId into a
queue that does not yet hold it yields exactly one entry for it, a second
enqueue of the same sourceId is a no-op leaving exactly that one entry,
and enqueueing when the queue is at capacity drops the new item, leaving
the queue unchanged (the operation is a total function: it never blocks
or raises). -/
theorem C1_retry_enqueue_idempotent_and_bounded
    (q : List RetryItem) (t a s t2 a2 : String)
    (habs : countSourceId q s = 0) :
    (q.length < FAILED_QUEUE_MAXLEN →
      countSourceId (add_to_failed_search_queue q t a s) s = 1 ∧
      add_to_failed_search_queue (add_to_failed_search_queue q t a s) t2 a2 s =
        add_to_failed_search_queue q t a s) ∧
    (FAILED_QUEUE_MAXLEN ≤ q.length → add_to_failed_search_queue q t a s = q) := by
  have hany := countSourceId_zero_any q s habs
  constructor
  · intro hlen
    have hq1 : add_to_failed_search_queue q t a s = q ++ [⟨t, a, s, 0⟩] := by
      unfold add_to_failed_search_queue
      simp only [hany, Bool.false_eq_true, if_false]
      rw [if_neg (by omega)]
    refine ⟨?_, ?_⟩
    · rw [hq1, countSourceId_append, habs, countSourceId_cons, countSourceId_nil]
      simp
    · rw [hq1]
      unfold add_to_failed_search_queue
      have hany2 : (q ++ [(⟨t, a, s, 0⟩ : RetryItem)]).any
          (fun it => it.sourceId == s) = true := by
        simp [List.any_append]
      rw [hany2]
      simp
  · intro hlen
    unfold add_to_failed_search_queue
    simp only [hany, Bool.false_eq_true, if_false]
    rw [if_pos hlen]

/-- Witness for C1 at a concrete input. -/
theorem C1_witness :
    countSourceId (add_to_failed_search_queue [] "T" "A" "x") "x" = 1 ∧
    add_to_failed_search_queue (add_to_failed_search_queue [] "T" "A" "x") "T" "A" "x" =
      add_to_failed_search_queue [] "T" "A" "x" :=
  (C1_retry_enqueue_idempotent_and_bounded [] "T" "A" "x" "T" "A" rfl).1 (by decide)

/-- Claim C2: with MAX_FAILED_SEARCH_ATTEMPTS = 3, an item entering the
queue with attempts = 0 whose searches keep failing is re-enqueued at the
tail with attempts 1 after the first drain and attempts 2 after the
second, and the third drain removes it for good, emitting a terminal
failure record; moreover no drain ever increases the number of queue
entries for any sourceId, so a discarded item never reappears. -/
theorem C2_bounded_retry (api : String → String → SearchOutcome) (it : RetryItem)
    (h0 : it.attempts = 0)
    (hfail : (search_song_on_spotify api it.title it.artist false true).result = none) :
    process_failed_search_queue api [it] =
      ⟨[⟨it.title, it.artist, it.sourceId, 1⟩], none, none⟩ ∧
    process_failed_search_queue api [⟨it.title, it.artist, it.sourceId, 1⟩] =
      ⟨[⟨it.title, it.artist, it.sourceId, 2⟩], none, none⟩ ∧
    process_failed_search_queue api [⟨it.title, it.artist, it.sourceId, 2⟩] =
      ⟨[], none, some ⟨it.title, it.artist, it.sourceId, 3⟩⟩ ∧
    ∀ (q : List RetryItem) (s : String),
      countSourceId (process_failed_search_queue api q).queue s ≤ countSourceId q s := by
  refine ⟨?_, ?_, ?_, fun q s => drain_countSourceId_le api q s⟩
  · simp [process_failed_search_queue, h0, hfail, dequeAppend,
      MAX_FAILED_SEARCH_ATTEMPTS, FAILED_QUEUE_MAXLEN]
  · simp [process_failed_search_queue, hfail, dequeAppend,
      MAX_FAILED_SEARCH_ATTEMPTS, FAILED_QUEUE_MAXLEN]
  · simp [process_failed_search_queue, hfail,
      MAX_FAILED_SEARCH_ATTEMPTS]

/-- Witness for C2 at a concrete input. -/
theorem C2_witness :
    process_failed_search_queue (fun _ _ => SearchOutcome.notFound)
        [⟨"T", "A", "x", 0⟩] = ⟨[⟨"T", "A", "x", 1⟩], none, none⟩ :=
  (C2_bounded_retry (fun _ _ => SearchOutcome.notFound) ⟨"T", "A", "x", 0⟩ rfl
    (by decide)).1

/-- The concrete search behaviour of the C3 scenario: the raw title
matches nothing, the parenthetical-stripped title "Song" resolves to
catalog id "abc". -/
def scenarioApi : String → String → SearchOutcome :=
  fun t _ => if t = "Song" then .found "abc" else .notFound

/-- Claim C3: when the raw title matches, resolution returns that match
after exactly one search call (no rewrite is attempted); and in the
scenario of an event "Song (Live)" by "Band" whose raw search finds
nothing but whose parenthetical-stripped search "Song" matches "abc",
resolution returns "abc" after exactly two search calls. -/
theorem C3_resolver_short_circuit :
    (∀ (api : String → String → SearchOutcome) (t a : String) (hasQ retry : Bool)
        (id : String), api t a = SearchOutcome.found id →
        search_song_on_spotify api t a hasQ retry = ⟨some id, [t], false, false⟩) ∧
    search_song_on_spotify scenarioApi "Song (Live)" "Band" true false =
      ⟨some "abc", ["Song (Live)", "Song"], false, false⟩ := by
  constructor
  · intro api t a hasQ retry id h
    simp [search_song_on_spotify, searchTitles, runSearchAttempts, h]
  · decide

/-- Witness for C3 at a concrete input. -/
theorem C3_witness :
    search_song_on_spotify (fun _ _ => SearchOutcome.found "z") "Raw" "A" false false =
      ⟨some "z", ["Raw"], false, false⟩ :=
  C3_resolver_short_circuit.1 (fun _ _ => SearchOutcome.found "z") "Raw" "A"
    false false "z" rfl

/-- Claim C4: inserting a catalog id twice while it sits in the
RecentlyInserted window costs exactly one outbound insert call — the
first call succeeds with one `playlist_add_items` call and records the id,
and the second call is answered as success with zero API calls. -/
theorem C4_idempotent_insert
    (playlist recently : List String) (c : String) (f1 f2 : Bool)
    (hnew : c ∉ recently) :
    (add_song_to_playlist playlist recently f1 .ok c).success = true ∧
    (add_song_to_playlist playlist recently f1 .ok c).insertCalls = 1 ∧
    (add_song_to_playlist (add_song_to_playlist playlist recently f1 .ok c).playlist
        (add_song_to_playlist playlist recently f1 .ok c).recentlyAdded f2 .ok c) =
      ⟨true, (add_song_to_playlist playlist recently f1 .ok c).playlist,
        (add_song_to_playlist playlist recently f1 .ok c).recentlyAdded, 0, false⟩ ∧
    (add_song_to_playlist playlist recently f1 .ok c).insertCalls +
      (add_song_to_playlist (add_song_to_playlist playlist recently f1 .ok c).playlist
          (add_song_to_playlist playlist recently f1 .ok c).recentlyAdded f2 .ok
          c).insertCalls = 1 := by
  have h1 : add_song_to_playlist playlist recently f1 .ok c =
      ⟨true, (if f1 then playlist else manage_playlist_size playlist) ++ [c],
        dequeAppend RECENTLY_ADDED_MAXLEN recently c, 1, false⟩ := by
    unfold add_song_to_playlist
    rw [if_neg hnew]
  have hmem : c ∈ dequeAppend RECENTLY_ADDED_MAXLEN recently c :=
    mem_dequeAppend_self _ (by norm_num [RECENTLY_ADDED_MAXLEN]) _ _
  have h2 : ∀ (p2 : List String) (fb : Bool),
      add_song_to_playlist p2 (dequeAppend RECENTLY_ADDED_MAXLEN recently c) fb .ok c =
        ⟨true, p2, dequeAppend RECENTLY_ADDED_MAXLEN recently c, 0, false⟩ := by
    intro p2 fb
    unfold add_song_to_playlist
    rw [if_pos hmem]
  rw [h1]
  dsimp only
  rw [h2]
  exact ⟨rfl, rfl, rfl, rfl⟩

/-- Witness for C4 at a concrete input. -/
theorem C4_witness :
    (add_song_to_playlist [] [] false .ok "c").success = true ∧
    (add_song_to_playlist [] [] false .ok "c").insertCalls = 1 ∧
    (add_song_to_playlist (add_song_to_playlist [] [] false .ok "c").playlist
        (add_song_to_playlist [] [] false .ok "c").recentlyAdded false .ok "c") =
      ⟨true, (add_song_to_playlist [] [] false .ok "c").playlist,
        (add_song_to_playlist [] [] false .ok "c").recentlyAdded, 0, false⟩ ∧
    (add_song_to_playlist [] [] false .ok "c").insertCalls +
      (add_song_to_playlist (add_song_to_playlist [] [] false .ok "c").playlist
          (add_song_to_playlist [] [] false .ok "c").recentlyAdded false .ok
          "c").insertCalls = 1 :=
  C4_idempotent_insert [] [] "c" false false (by simp)

/-- Claim C5: after the duplicate sweep completes (catalog calls
succeeding), every catalog id that occurred more than once in the fetched
playlist occurs exactly once, and that id was registered with
RECENTLY_ADDED_SPOTIFY_IDS after its re-insertion. -/
theorem C5_sweep_uniqueness (playlist recently : List String) (c : String)
    (hdup : 1 < countId playlist c) :
    countId (check_and_remove_duplicates playlist recently).playlist c = 1 ∧
    c ∈ (check_and_remove_duplicates playlist recently).registered := by
  have hmem : c ∈ dupIds playlist :=
    (mem_dupIds playlist c).mpr ⟨mem_of_countId_pos _ _ (by omega), hdup⟩
  exact foldl_processDup_count_of_mem c (dupIds playlist) _ (dupIds_nodup playlist) hmem

/-- Witness for C5 at a concrete input. -/
theorem C5_witness :
    countId (check_and_remove_duplicates ["a", "b", "a"] []).playlist "a" = 1 ∧
    "a" ∈ (check_and_remove_duplicates ["a", "b", "a"] []).registered :=
  C5_sweep_uniqueness ["a", "b", "a"] [] "a" (by decide)

/-- Counterexample to claim C6: on a transient search error the resolver
returns the very same value (None) that it returns for an exhaustive
not-found, so the outcome surfaced to the caller is not a classified
result distinct from "not found". -/
theorem C6_counterexample :
    (search_song_on_spotify (fun _ _ => SearchOutcome.networkError)
        "Song" "Band" true false).result =
      (search_song_on_spotify (fun _ _ => SearchOutcome.notFound)
        "Song" "Band" true false).result ∧
    (search_song_on_spotify (fun _ _ => SearchOutcome.networkError)
        "Song" "Band" true false).result = none := by
  decide

/-- Claim C6 (amended): when the first search attempt fails with a
transient network/API error, the resolver stops immediately — exactly one
search call, no rewrite attempts — and returns None; the transient case
is distinguishable from not-found only through side effects: the item is
enqueued to the failed-search queue (when a queue id is present and the
call is not itself a retry) and no daily not-found record is written. -/
theorem C6_transient_short_circuit (api : String → String → SearchOutcome)
    (t a : String) (hasQ retry : Bool) (h : api t a = SearchOutcome.networkError) :
    search_song_on_spotify api t a hasQ retry =
      ⟨none, [t], hasQ && !retry, false⟩ := by
  simp [search_song_on_spotify, searchTitles, runSearchAttempts, h]

/-- Witness for C6 at a concrete input. -/
theorem C6_witness :
    search_song_on_spotify (fun _ _ => SearchOutcome.networkError) "X" "Y" true false =
      ⟨none, ["X"], true, false⟩ :=
  C6_transient_short_circuit (fun _ _ => SearchOutcome.networkError) "X" "Y"
    true false rfl

/-- Claim C7 (the code contradicts it): starting from the state produced
by the explicit pause command — service_state "paused" with reason
"manual" — the very next main-loop iteration inside the active window
runs a tick (process_main_cycle) and silently resets the state to
"playing", although no resume command was issued. -/
theorem C7_pause_is_ignored_by_run_loop :
    (admin_pause_resume ⟨"playing", "", 0⟩).service_state = "paused" ∧
    (admin_pause_resume ⟨"playing", "", 0⟩).paused_reason = "manual" ∧
    run_loop_iteration true (admin_pause_resume ⟨"playing", "", 0⟩) =
      ⟨"playing", "", 1⟩ := by
  decide

/-- A concrete bot state for the C8 counterexample: a last-inserted
sourceId is present in memory before the snapshot is taken. -/
def botEx : BotState := ⟨["id1"], [], [], [], some "x1"⟩

/-- Counterexample to claim C8: `save_state` does not write
`last_added_radiox_track_id` and `load_state` does not restore it, so a
save followed by a load into a fresh process yields None instead of the
saved value — the engine forgets the currently-playing track across a
restart. -/
theorem C8_counterexample :
    (load_state (save_state botEx) initState).lastAddedRadioXTrackId ≠
      botEx.lastAddedRadioXTrackId := by
  decide

/-- Claim C8 (amended): the snapshot written by `save_state` holds the
RecentlyInserted contents, the retry-queue contents and the daily
summaries, and `load_state` restores exactly those on a fresh instance;
`last_added_radiox_track_id` is not part of the snapshot, so after a
restart it is None regardless of its value before saving. -/
theorem C8_snapshot_roundtrip (b : BotState)
    (h1 : b.recentlyAdded.length ≤ RECENTLY_ADDED_MAXLEN)
    (h2 : b.failedQueue.length ≤ FAILED_QUEUE_MAXLEN) :
    (load_state (save_state b) initState).recentlyAdded = b.recentlyAdded ∧
    (load_state (save_state b) initState).failedQueue = b.failedQueue ∧
    (load_state (save_state b) initState).dailyAdded = b.dailyAdded ∧
    (load_state (save_state b) initState).dailyFailed = b.dailyFailed ∧
    (load_state (save_state b) initState).lastAddedRadioXTrackId = none := by
  unfold load_state save_state initState
  dsimp only
  rw [dequeOfList_of_le _ _ h1, dequeOfList_of_le _ _ h2]
  exact ⟨rfl, rfl, rfl, rfl, rfl⟩

/-- Witness for C8 (amended) at a concrete input. -/
theorem C8_witness :
    (load_state (save_state botEx) initState).recentlyAdded = botEx.recentlyAdded ∧
    (load_state (save_state botEx) initState).failedQueue = botEx.failedQueue ∧
    (load_state (save_state botEx) initState).dailyAdded = botEx.dailyAdded ∧
    (load_state (save_state botEx) initState).dailyFailed = botEx.dailyFailed ∧
    (load_state (save_state botEx) initState).lastAddedRadioXTrackId = none :=
  C8_snapshot_roundtrip botEx (by decide) (by decide)

/-- A playlist at capacity whose oldest track id also occurs at the far
end, for the C9 counterexample. -/
def playlistEx : List String := "a" :: (List.replicate 498 "b" ++ ["a"])

/-- Counterexample to claim C9: when the playlist is at capacity the code
calls `playlist_remove_all_occurrences_of_items` on the oldest track's
id, which removes every occurrence of that id — not "the single oldest
item (position 0)": on a 500-item playlist whose first and last items
share an id, two items disappear, not one. -/
theorem C9_counterexample :
    playlistEx.length = MAX_PLAYLIST_SIZE ∧
    manage_playlist_size playlistEx ≠ playlistEx.drop 1 ∧
    (manage_playlist_size playlistEx).length = 498 := by
  refine ⟨by decide, fun h => absurd (congrArg List.length h) (by decide), by decide⟩

/-- Claim C9 (amended): immediately before every insert the engine
re-queries the playlist; if it holds at least MAX_PLAYLIST_SIZE items,
every occurrence of the id of the oldest item (position 0) is removed
before the insert proceeds; below the cap nothing is evicted; and when
the size-management step fails, the failure is non-fatal — the pending
insert still proceeds on the unmanaged playlist and reports success. -/
theorem C9_size_governor (p r : List String) (hd : String) (tl : List String)
    (c : String) (hp : p = hd :: tl) (hfull : MAX_PLAYLIST_SIZE ≤ p.length)
    (hnew : c ∉ r) :
    manage_playlist_size p = p.filter (fun x => x != hd) ∧
    (∀ q : List String, q.length < MAX_PLAYLIST_SIZE → manage_playlist_size q = q) ∧
    (add_song_to_playlist p r false .ok c).playlist = manage_playlist_size p ++ [c] ∧
    (add_song_to_playlist p r true .ok c).success = true ∧
    (add_song_to_playlist p r true .ok c).playlist = p ++ [c] := by
  subst hp
  refine ⟨?_, ?_, ?_, ?_, ?_⟩
  · unfold manage_playlist_size
    rw [if_pos hfull]
  · intro q hq
    unfold manage_playlist_size
    rw [if_neg (by omega)]
  · unfold add_song_to_playlist
    rw [if_neg hnew]
    rfl
  · unfold add_song_to_playlist
    rw [if_neg hnew]
  · unfold add_song_to_playlist
    rw [if_neg hnew]
    rfl

/-- Witness for C9 (amended) at a concrete input. -/
theorem C9_witness :
    (add_song_to_playlist ("a" :: List.replicate 499 "a") [] true .ok "c").success =
        true ∧
    (add_song_to_playlist ("a" :: List.replicate 499 "a") [] true .ok "c").playlist =
      ("a" :: List.replicate 499 "a") ++ ["c"] :=
  ⟨(C9_size_governor ("a" :: List.replicate 499 "a") [] "a" (List.replicate 499 "a")
      "c" rfl (by simp [MAX_PLAYLIST_SIZE]) (by simp)).2.2.2.1,
   (C9_size_governor ("a" :: List.replicate 499 "a") [] "a" (List.replicate 499 "a")
      "c" rfl (by simp [MAX_PLAYLIST_SIZE]) (by simp)).2.2.2.2⟩

/-- Claim C10: when Spotify rejects the add with a 403 whose message
marks a duplicate, the call returns failure and records a daily failure,
but the track id is still written into RECENTLY_ADDED_SPOTIFY_IDS — so
every later insert attempt for that id within the window is suppressed:
answered as success with zero outbound API calls and unchanged state. -/
theorem C10_duplicate403_suppression
    (playlist recently : List String) (c : String) (f1 : Bool)
    (hnew : c ∉ recently) :
    (add_song_to_playlist playlist recently f1 .duplicate403 c).success = false ∧
    (add_song_to_playlist playlist recently f1 .duplicate403 c).insertCalls = 1 ∧
    (add_song_to_playlist playlist recently f1 .duplicate403 c).dailyFailureRecorded =
      true ∧
    c ∈ (add_song_to_playlist playlist recently f1 .duplicate403 c).recentlyAdded ∧
    ∀ (p2 : List String) (f2 : Bool) (api2 : AddApiOutcome),
      add_song_to_playlist p2
          (add_song_to_playlist playlist recently f1 .duplicate403 c).recentlyAdded
          f2 api2 c =
        ⟨true, p2,
          (add_song_to_playlist playlist recently f1 .duplicate403 c).recentlyAdded,
          0, false⟩ := by
  have h1 : add_song_to_playlist playlist recently f1 .duplicate403 c =
      ⟨false, (if f1 then playlist else manage_playlist_size playlist),
        dequeAppend RECENTLY_ADDED_MAXLEN recently c, 1, true⟩ := by
    unfold add_song_to_playlist
    rw [if_neg hnew]
  have hmem : c ∈ dequeAppend RECENTLY_ADDED_MAXLEN recently c :=
    mem_dequeAppend_self _ (by norm_num [RECENTLY_ADDED_MAXLEN]) _ _
  rw [h1]
  refine ⟨rfl, rfl, rfl, hmem, ?_⟩
  intro p2 f2 api2
  unfold add_song_to_playlist
  rw [if_pos hmem]

/-- Witness for C10 at a concrete input. -/
theorem C10_witness :
    (add_song_to_playlist [] [] false .duplicate403 "c").success = false ∧
    (add_song_to_playlist [] [] false .duplicate403 "c").insertCalls = 1 ∧
    (add_song_to_playlist [] [] false .duplicate403 "c").dailyFailureRecorded = true ∧
    "c" ∈ (add_song_to_playlist [] [] false .duplicate403 "c").recentlyAdded ∧
    ∀ (p2 : List String) (f2 : Bool) (api2 : AddApiOutcome),
      add_song_to_playlist p2
          (add_song_to_playlist [] [] false .duplicate403 "c").recentlyAdded
          f2 api2 "c" =
        ⟨true, p2,
          (add_song_to_playlist [] [] false .duplicate403 "c").recentlyAdded,
          0, false⟩ :=
  C10_duplicate403_suppression [] [] "c" false (by simp)

end RadioX

/-! Sanity examples (concrete evaluation of the resolver model). -/

example : RadioX.cleanParen "Song (Live)" = "Song" := by decide

example : RadioX.cleanFeat "Song feat. Bob" = "Song" := by decide

example : RadioX.searchTitles "Song (Live)" = ["Song (Live)", "Song"] := by decide
